import Mathlib

/-!
Shallow embedding of the token-caching core of `openedx-rest-api-client`
(files `edx_rest_api_client/cached_token.py` and
`openedx_rest_api_client/session.py`), together with theorems settling the
specification claims about it.

Modelling conventions:
* Wall-clock instants (`datetime.datetime.utcnow()`) are integers counting
  seconds; `datetime.timedelta(seconds=n)` is the integer `n`.  The two
  `utcnow()` reads that can occur inside a single `get_and_cache` call are
  modelled as the same instant `now` (they are microseconds apart in the
  source and every claim quantifies over whole-second windows).
* The network is modelled by passing, to each call, the value that
  `requests.post` would produce at that moment: either a transport-level
  exception or an `HttpResponse`.  The response body is carried both raw and
  as the outcome of `response.json()` (`none` models a `JSONDecodeError`).
* Python exceptions become the `PyErr` inductive; `Except` models
  raising/propagation.  Mutation of `self` becomes explicit state passing;
  every operation returns the value produced together with the successor
  state and a record of the HTTP POST it performed, if any.
-/

namespace OpenedxClient

/-- Seconds subtracted from a token's lifetime when caching it; the constant
`ACCESS_TOKEN_EXPIRED_THRESHOLD_SECONDS = 5` of `cached_token.py`. -/
def ACCESS_TOKEN_EXPIRED_THRESHOLD_SECONDS : Int := 5

/-- Python `list(reversed(...))`-style core of `str.rstrip('/')`: drop every
trailing `'/'` character of a character list. -/
def rstripSlashList (l : List Char) : List Char :=
  (l.reverse.dropWhile (fun c => c == '/')).reverse

/-- Python `url.rstrip('/')`: remove all trailing slash characters. -/
def pyRstripSlash (s : String) : String :=
  ⟨rstripSlashList s.data⟩

/-- Python `s.endswith(t)`. -/
def pyEndsWith (s t : String) : Bool :=
  t.data.isSuffixOf s.data

/-- Embedding of `_get_oauth_url` from `cached_token.py`: strip trailing
slashes; if the stripped url ends with `/access_token` return the original
`url`; if it ends with `/oauth2` append `/access_token` to the stripped url;
otherwise append `/oauth2/access_token` to the stripped url. -/
def _get_oauth_url (url : String) : String :=
  let stripped_url := pyRstripSlash url
  if pyEndsWith stripped_url "/access_token" then url
  else if pyEndsWith stripped_url "/oauth2" then stripped_url ++ "/access_token"
  else stripped_url ++ "/oauth2/access_token"

/-! Data model: JSON values, Python exceptions, HTTP responses. -/

/-- A parsed JSON value, as produced by `response.json()`.  Objects carry the
key/value pairs of the resulting Python dict (keys unique, as `json.loads`
yields).  Numbers are modelled as integers; `expires_in` is specified as an
integer number of seconds and no claim involves fractional numerals. -/
inductive Json where
  | null
  | bool (b : Bool)
  | num (n : Int)
  | str (s : String)
  | arr (xs : List Json)
  | obj (fields : List (String × Json))

/-- Python truthiness of a JSON value (`if self.oauth_access_token:`). -/
def jsonTruthy : Json → Bool
  | .null => false
  | .bool b => b
  | .num n => n != 0
  | .str s => !s.isEmpty
  | .arr xs => !xs.isEmpty
  | .obj fs => !fs.isEmpty

/-- Python truthiness of an optional string (`if refresh_token:` where the
value is `None` or a `str`). -/
def pyTruthy : Option String → Bool
  | none => false
  | some s => !s.isEmpty

/-- The Python exceptions the embedded code can raise.
`httpError` is `requests.HTTPError` from `response.raise_for_status()`;
`requestException` is the bare `requests.RequestException(response=response)`
raised on an unparsable or incomplete token response (it carries the raw
response); `assertionError` is the `assert` failure for a refresh grant
without a refresh token; `typeError` arises from subscripting a non-dict;
`transportError` stands for any exception raised by `requests.post` itself
(DNS, connect, read timeout, ...). -/
inductive PyErr where
  | assertionError (msg : String)
  | httpError (status : Nat) (rawBody : String)
  | requestException (status : Nat) (rawBody : String)
  | keyError (key : String)
  | typeError (msg : String)
  | transportError (msg : String)

/-- An HTTP response from the auth endpoint: its status code, raw body, and
the outcome of `response.json()` (`none` models `json.JSONDecodeError`). -/
structure HttpResponse where
  status : Nat
  rawBody : String
  jsonBody : Option Json

/-- Python `data[key]` on a parsed JSON value: a lookup on a dict, a
`KeyError` when the key is absent, and a `TypeError` when the value is not a
dict (e.g. a JSON array or string). -/
def pySubscript (j : Json) (key : String) : Except PyErr Json :=
  match j with
  | .obj fields =>
    match fields.lookup key with
    | some v => .ok v
    | none => .error (.keyError key)
  | .str _ => .error (.typeError "string indices must be integers")
  | .arr _ => .error (.typeError "list indices must be integers or slices, not str")
  | _ => .error (.typeError "value is not subscriptable")

/-- Python `datetime.timedelta(seconds=x)` for the JSON value bound to
`expires_in`: defined for numbers (and bools, which are ints in Python),
a `TypeError` otherwise.  This conversion happens outside the
`try`/`except` of the source, so its `TypeError` is never converted into a
`RequestException`. -/
def timedeltaSeconds : Json → Except PyErr Int
  | .num n => .ok n
  | .bool b => .ok (if b then 1 else 0)
  | _ => .error (.typeError "unsupported type for timedelta seconds component")

/-- Embedding of `response.raise_for_status()`: `requests` raises
`HTTPError` exactly for status codes in `[400, 600)`. -/
def raise_for_status (resp : HttpResponse) : Except PyErr Unit :=
  if 400 ≤ resp.status ∧ resp.status < 600 then
    .error (.httpError resp.status resp.rawBody)
  else .ok ()

/-- The `try: data = response.json(); access_token = data[...];
expires_in = data[...] except (KeyError, JSONDecodeError): raise
RequestException(response=response)` block of `get_oauth_access_token`.
A `TypeError` from subscripting a non-dict body is not in the `except`
tuple and escapes unchanged. -/
def parse_token_response (resp : HttpResponse) : Except PyErr (Json × Json) :=
  match resp.jsonBody with
  | none => .error (.requestException resp.status resp.rawBody)
  | some data =>
    match pySubscript data "access_token" with
    | .error (.keyError _) => .error (.requestException resp.status resp.rawBody)
    | .error e => .error e
    | .ok access_token =>
      match pySubscript data "expires_in" with
      | .error (.keyError _) => .error (.requestException resp.status resp.rawBody)
      | .error e => .error e
      | .ok expires_in => .ok (access_token, expires_in)

/-- Result of one invocation of `get_oauth_access_token`: the value returned
or exception raised, and the HTTP POST performed (target url and
form-encoded body), if the code reached `requests.post` at all. -/
structure FetchOutcome where
  result : Except PyErr (Json × Int)
  posted : Option (String × List (String × String))

/-- The part of `get_oauth_access_token` from `requests.post` onward:
post the form body, `raise_for_status`, parse the JSON body, and return
`(access_token, now + timedelta(seconds=expires_in))`.  `r` is what
`requests.post` produces at this moment. -/
def post_and_parse (now : Int) (r : Except PyErr HttpResponse)
    (postUrl : String) (data : List (String × String)) : FetchOutcome :=
  let posted := some (postUrl, data)
  match r with
  | .error e => { result := .error e, posted := posted }
  | .ok resp =>
    match raise_for_status resp with
    | .error e => { result := .error e, posted := posted }
    | .ok _ =>
      match parse_token_response resp with
      | .error e => { result := .error e, posted := posted }
      | .ok (access_token, expires_in) =>
        match timedeltaSeconds expires_in with
        | .error e => { result := .error e, posted := posted }
        | .ok secs => { result := .ok (access_token, now + secs), posted := posted }

/-- Embedding of the module-level `get_oauth_access_token` of
`cached_token.py`.  `now` is the `datetime.datetime.utcnow()` captured at
entry; `r` is what `requests.post` would produce.  The form body is built
with the four base fields; `refresh_token` is added whenever the supplied
value is truthy, and when it is falsy the code asserts
`grant_type != 'refresh_token'` before any network access. -/
def get_oauth_access_token (now : Int) (r : Except PyErr HttpResponse)
    (url client_id client_secret : String)
    (token_type grant_type : String) (refresh_token : Option String) :
    FetchOutcome :=
  let data := [("grant_type", grant_type), ("client_id", client_id),
               ("client_secret", client_secret), ("token_type", token_type)]
  if pyTruthy refresh_token then
    post_and_parse now r (_get_oauth_url url)
      (data ++ [("refresh_token", refresh_token.getD "")])
  else if grant_type == "refresh_token" then
    { result := .error (.assertionError "refresh_token parameter required"),
      posted := none }
  else
    post_and_parse now r (_get_oauth_url url) data

/-! The `CachedToken` class. -/

/-- State of a `CachedToken` instance: the configuration captured by
`__init__` plus the two mutable attributes `oauth_access_token` (initially
`None`) and `expiration`. -/
structure CachedToken where
  url : String
  client_id : String
  client_secret : String
  token_type : String
  grant_type : String
  refresh_token : Option String
  oauth_access_token : Option Json
  expiration : Int

/-- Embedding of `CachedToken.__init__`: `now` is the
`datetime.datetime.utcnow()` stored into `self.expiration`. -/
def CachedToken.init (now : Int) (url client_id client_secret : String)
    (token_type grant_type : String) (refresh_token : Option String) :
    CachedToken :=
  { url := url, client_id := client_id, client_secret := client_secret,
    token_type := token_type, grant_type := grant_type,
    refresh_token := refresh_token,
    oauth_access_token := none, expiration := now }

/-- Result of one `get_and_cache_oauth_access_token` call: the value
returned or exception raised, the instance state after the call, and the
HTTP POST performed, if any. -/
structure CacheCallOutcome where
  result : Except PyErr (Json × Int)
  state : CachedToken
  posted : Option (String × List (String × String))

/-- The fetch-and-store tail of `get_and_cache_oauth_access_token`:
call `get_oauth_access_token`, then cache the token with
`self.expiration = expiration - ACCESS_TOKEN_EXPIRED_THRESHOLD_SECONDS`
and return `(self.oauth_access_token, self.expiration)`.  When the fetch
raises, the assignments never run and the state is unchanged. -/
def CachedToken.fetch_and_store (self : CachedToken) (oauth_url : String)
    (now : Int) (r : Except PyErr HttpResponse) : CacheCallOutcome :=
  let out := get_oauth_access_token now r oauth_url self.client_id
    self.client_secret self.token_type self.grant_type self.refresh_token
  match out.result with
  | .error e => { result := .error e, state := self, posted := out.posted }
  | .ok (tok, expiration) =>
    let stored := expiration - ACCESS_TOKEN_EXPIRED_THRESHOLD_SECONDS
    { result := .ok (tok, stored),
      state := { self with oauth_access_token := some tok, expiration := stored },
      posted := out.posted }

/-- Embedding of `CachedToken.get_and_cache_oauth_access_token`: when a
truthy token is cached and `utcnow()` is strictly before
`self.expiration - ACCESS_TOKEN_EXPIRED_THRESHOLD_SECONDS`, return the
cached `(self.oauth_access_token, self.expiration)` without touching the
network; otherwise fetch and store a new token. -/
def CachedToken.get_and_cache_oauth_access_token (self : CachedToken)
    (now : Int) (r : Except PyErr HttpResponse) : CacheCallOutcome :=
  let oauth_url := _get_oauth_url self.url
  match self.oauth_access_token with
  | some tok =>
    if jsonTruthy tok then
      if now < self.expiration - ACCESS_TOKEN_EXPIRED_THRESHOLD_SECONDS then
        { result := .ok (tok, self.expiration), state := self, posted := none }
      else self.fetch_and_store oauth_url now r
    else self.fetch_and_store oauth_url now r
  | none => self.fetch_and_store oauth_url now r

/-- One scheduled `getToken()` call: the wall-clock instant at which it is
made and what `requests.post` would produce at that instant. -/
structure CallSpec where
  time : Int
  response : Except PyErr HttpResponse

/-- Run a sequence of `get_and_cache_oauth_access_token` calls on one cache,
threading the instance state. -/
def CachedToken.runCalls (self : CachedToken) : List CallSpec → List CacheCallOutcome
  | [] => []
  | c :: cs =>
    let out := self.get_and_cache_oauth_access_token c.time c.response
    out :: out.state.runCalls cs

/-- What a caller observes of one call: the returned value or exception,
and the HTTP POST performed, if any. -/
def observe (o : CacheCallOutcome) :
    (Except PyErr (Json × Int)) × Option (String × List (String × String)) :=
  (o.result, o.posted)

/-- A cache state with the cached-token attribute cleared: the state of a
never-authenticated cache with the same configuration. -/
def CachedToken.resetToken (s : CachedToken) : CachedToken :=
  { s with oauth_access_token := none }

/-- The cached token, if one is present and truthy, is already past its
freshness check at instant `t`. -/
def CachedToken.staleAt (s : CachedToken) (t : Int) : Prop :=
  ∀ tok, s.oauth_access_token = some tok → jsonTruthy tok = true →
    s.expiration - ACCESS_TOKEN_EXPIRED_THRESHOLD_SECONDS ≤ t

/-- The call times of a schedule are nondecreasing and start no earlier
than `t`. -/
def chronological (t : Int) : List CallSpec → Bool
  | [] => true
  | c :: cs => decide (t ≤ c.time) && chronological c.time cs

/-! The `OAuthAPISession` class of `session.py`. -/

/-- State of an `OAuthAPISession`: the constructor arguments (with
`_base_url` already stripped of trailing slashes), the overridable
`oauth_uri` attribute (class default `None`), the `_access_token`
attribute holding the lazily created `CachedToken` (initially `None`),
and `auth.token` (initially `None`). -/
structure SessionState where
  base_url : String
  client_id : String
  client_secret : String
  token_type : String
  oauth_uri : Option String
  access_token : Option CachedToken
  authToken : Option Json

/-- Embedding of `OAuthAPISession.__init__`: `self._base_url =
base_url.rstrip('/')`; a bearer session uses token type `bearer`, otherwise
`jwt`; `oauth_uri`, `_access_token` and `auth.token` start as `None`. -/
def OAuthAPISession.init (base_url client_id client_secret : String)
    (bearer : Bool) : SessionState :=
  { base_url := pyRstripSlash base_url, client_id := client_id,
    client_secret := client_secret,
    token_type := if bearer then "bearer" else "jwt",
    oauth_uri := none, access_token := none, authToken := none }

/-- The auth-endpoint base the session would use right now:
`self._base_url if not self.oauth_uri else self._base_url + self.oauth_uri`. -/
def SessionState.currentOauthUrl (s : SessionState) : String :=
  match s.oauth_uri with
  | none => s.base_url
  | some u => if u.isEmpty then s.base_url else s.base_url ++ u

/-- Result of one `_ensure_authentication` call: the token stored into
`auth.token` (or the exception raised), the session state after the call,
and the HTTP POST performed, if any. -/
structure EnsureOutcome where
  result : Except PyErr Json
  state : SessionState
  posted : Option (String × List (String × String))

/-- Embedding of `OAuthAPISession._ensure_authentication`: on first use it
creates the `CachedToken` from the current `oauth_uri` (grant type
`client_credentials`, no refresh token); it then delegates to
`get_and_cache_oauth_access_token` and, on success, stores the token into
`self.auth.token`. -/
def SessionState.ensure_authentication (s : SessionState) (now : Int)
    (r : Except PyErr HttpResponse) : EnsureOutcome :=
  let ct : CachedToken :=
    match s.access_token with
    | some ct => ct
    | none =>
      CachedToken.init now s.currentOauthUrl s.client_id s.client_secret
        s.token_type "client_credentials" none
  let out := ct.get_and_cache_oauth_access_token now r
  match out.result with
  | .error e =>
    { result := .error e,
      state := { s with access_token := some out.state },
      posted := out.posted }
  | .ok (tok, _) =>
    { result := .ok tok,
      state := { s with access_token := some out.state, authToken := some tok },
      posted := out.posted }

/-- An outbound API request as handed to `requests.Session.request`, with
the `Authorization` material the session's auth object would attach:
`auth.token` at send time and the header scheme (`Bearer` or `JWT`)
selected at construction. -/
structure OutboundRequest where
  method : String
  url : String
  authToken : Option Json
  scheme : String

/-- Result of one `OAuthAPISession.request` call: success or the
propagated exception, the session state after the call, the token-endpoint
POST performed during authentication (if any), and the outbound API request
actually handed to the transport (if reached). -/
structure RequestOutcome where
  result : Except PyErr Unit
  state : SessionState
  tokenPosted : Option (String × List (String × String))
  outbound : Option OutboundRequest

/-- Embedding of `OAuthAPISession.request`: run `_ensure_authentication`
first; if it raises, the exception propagates and `super().request` is
never reached; otherwise delegate to the transport with the freshly stored
`auth.token`. -/
def SessionState.request (s : SessionState) (now : Int)
    (r : Except PyErr HttpResponse) (method url : String) : RequestOutcome :=
  let ens := s.ensure_authentication now r
  match ens.result with
  | .error e =>
    { result := .error e, state := ens.state,
      tokenPosted := ens.posted, outbound := none }
  | .ok _ =>
    { result := .ok (), state := ens.state, tokenPosted := ens.posted,
      outbound := some { method := method, url := url,
                         authToken := ens.state.authToken,
                         scheme := if ens.state.token_type == "bearer"
                                   then "Bearer" else "JWT" } }

/-- An operation a caller can perform on a session: assign the `oauth_uri`
attribute, or issue a request (which authenticates first). -/
inductive SessionOp where
  | setOauthUri (v : Option String)
  | call (now : Int) (r : Except PyErr HttpResponse) (method url : String)

/-- Apply one session operation, returning the new state and the
token-endpoint POST it performed, if any. -/
def SessionState.applyOp (s : SessionState) :
    SessionOp → SessionState × Option (String × List (String × String))
  | .setOauthUri v => ({ s with oauth_uri := v }, none)
  | .call now r m u =>
    let out := s.request now r m u
    (out.state, out.tokenPosted)

/-- The urls of every token-endpoint POST performed while running a
sequence of session operations. -/
def SessionState.postedUrls (s : SessionState) : List SessionOp → List String
  | [] => []
  | op :: ops =>
    let next := s.applyOp op
    (match next.2 with
     | some p => [p.1]
     | none => []) ++ next.1.postedUrls ops

/-! Concrete fixtures used by witnesses and counterexamples. -/

/-- A well-formed token response: HTTP 200 carrying
`\x7b"access_token": "abcd", "expires_in": 60\x7d`. -/
def demoTokenResponse : HttpResponse :=
  { status := 200,
    rawBody := "\x7b\x22access_token\x22: \x22abcd\x22, \x22expires_in\x22: 60\x7d",
    jsonBody := some (.obj [("access_token", .str "abcd"),
                            ("expires_in", .num 60)]) }

/-- A second well-formed token response with a different token value. -/
def demoTokenResponse2 : HttpResponse :=
  { status := 200,
    rawBody := "\x7b\x22access_token\x22: \x22efgh\x22, \x22expires_in\x22: 60\x7d",
    jsonBody := some (.obj [("access_token", .str "efgh"),
                            ("expires_in", .num 60)]) }

/-- A token response whose lifetime (3 s) is below the 5 s margin. -/
def demoTinyResponse : HttpResponse :=
  { status := 200,
    rawBody := "\x7b\x22access_token\x22: \x22tiny\x22, \x22expires_in\x22: 3\x7d",
    jsonBody := some (.obj [("access_token", .str "tiny"),
                            ("expires_in", .num 3)]) }

/-- An HTTP 500 error response with an empty body (Scenario B). -/
def demo500 : HttpResponse :=
  { status := 500, rawBody := "", jsonBody := none }

/-- An HTTP 200 response whose body is not valid JSON (Scenario C). -/
def demoNotJson : HttpResponse :=
  { status := 200, rawBody := "Not JSON", jsonBody := none }

/-- An HTTP 200 response whose body is valid JSON but a JSON array, so
subscripting it with a string key raises a `TypeError` in Python. -/
def demoArrayResponse : HttpResponse :=
  { status := 200, rawBody := "[1, 2]",
    jsonBody := some (.arr [.num 1, .num 2]) }

/-- A fresh client-credentials cache created at instant 0. -/
def demoCache : CachedToken :=
  CachedToken.init 0 "http://h" "cid" "sec" "jwt" "client_credentials" none

/-- The first `getToken()` call on `demoCache` at instant 0, answered by
`demoTokenResponse` (a 60 s token): Scenario A's T0. -/
def demoFirstCall : CacheCallOutcome :=
  demoCache.get_and_cache_oauth_access_token 0 (.ok demoTokenResponse)

/-- A second `getToken()` call 52 s after the first fetch. -/
def demoSecondCall : CacheCallOutcome :=
  demoFirstCall.state.get_and_cache_oauth_access_token 52 (.ok demoTokenResponse2)

/-- A cache holding a token whose adjusted expiry (55) has passed by
instant 60. -/
def demoStaleCache : CachedToken :=
  { demoCache with oauth_access_token := some (.str "old"), expiration := 55 }

/-- A cache holding a token whose adjusted expiry (55) is still far away at
instant 30. -/
def demoFreshCache : CachedToken :=
  { demoCache with oauth_access_token := some (.str "abcd"), expiration := 55 }

/-- A jwt session for `http://h`, as built by `OAuthAPISession.__init__`. -/
def demoSession : SessionState :=
  OAuthAPISession.init "http://h/" "cid" "sec" false

/-- A run that reassigns `oauth_uri` after authentication and issues another
request. -/
def demoOps : List SessionOp :=
  [SessionOp.setOauthUri (some "/other"),
   SessionOp.call 30 (.ok demoTokenResponse2) "GET" "http://h/api/x"]

/-! Helper lemmas about the string operations. -/

lemma pyEndsWith_append (s t : String) : pyEndsWith (s ++ t) t = true := by
  unfold pyEndsWith
  rw [List.isSuffixOf_iff_suffix, String.data_append]
  exact List.suffix_append _ _

lemma rstripSlashList_eq_self (xs : List Char) (c : Char) (rest : List Char)
    (hrev : xs.reverse = c :: rest) (hc : (c == '/') = false) :
    rstripSlashList xs = xs := by
  unfold rstripSlashList
  rw [hrev, List.dropWhile_cons, hc]
  simp only [Bool.false_eq_true, if_false]
  rw [← hrev, List.reverse_reverse]

lemma rstrip_append_of_rev (s t : String) (c : Char) (rest : List Char)
    (ht : t.data.reverse = c :: rest) (hc : (c == '/') = false) :
    pyRstripSlash (s ++ t) = s ++ t := by
  have hdata : (s ++ t).data = s.data ++ t.data := String.data_append s t
  have hrev : (s ++ t).data.reverse = c :: (rest ++ s.data.reverse) := by
    rw [hdata, List.reverse_append, ht, List.cons_append]
  show (⟨rstripSlashList (s ++ t).data⟩ : String) = s ++ t
  rw [rstripSlashList_eq_self _ c _ hrev hc]

lemma rstrip_append_access_token (s : String) :
    pyRstripSlash (s ++ "/access_token") = s ++ "/access_token" :=
  rstrip_append_of_rev s "/access_token" 'n'
    ['e', 'k', 'o', 't', '_', 's', 's', 'e', 'c', 'c', 'a', '/'] rfl rfl

lemma endsWith_access_token_of_append (s : String) :
    pyEndsWith (s ++ "/oauth2/access_token") "/access_token" = true := by
  have h : s ++ "/oauth2/access_token" = (s ++ "/oauth2") ++ "/access_token" := by
    rw [String.append_assoc]; rfl
  rw [h]
  exact pyEndsWith_append _ _

/-- On any input whose stripped form already ends with `/access_token`,
`_get_oauth_url` returns the input unchanged. -/
lemma getOauthUrl_of_endsWith (u : String)
    (h : pyEndsWith (pyRstripSlash u) "/access_token" = true) :
    _get_oauth_url u = u := by
  simp [_get_oauth_url, h]

/-- The output of `_get_oauth_url` is a fixed point of `_get_oauth_url`. -/
lemma getOauthUrl_idem (u : String) :
    _get_oauth_url (_get_oauth_url u) = _get_oauth_url u := by
  by_cases h1 : pyEndsWith (pyRstripSlash u) "/access_token" = true
  · rw [getOauthUrl_of_endsWith u h1]
    exact getOauthUrl_of_endsWith u h1
  · have h1f : pyEndsWith (pyRstripSlash u) "/access_token" = false :=
      Bool.eq_false_iff.mpr h1
    by_cases h2 : pyEndsWith (pyRstripSlash u) "/oauth2" = true
    · have hval : _get_oauth_url u = pyRstripSlash u ++ "/access_token" := by
        unfold _get_oauth_url
        simp only [h1f, h2, Bool.false_eq_true, if_false, if_true]
      rw [hval]
      apply getOauthUrl_of_endsWith
      rw [rstrip_append_access_token]
      exact pyEndsWith_append _ _
    · have h2f : pyEndsWith (pyRstripSlash u) "/oauth2" = false :=
        Bool.eq_false_iff.mpr h2
      have hval : _get_oauth_url u = pyRstripSlash u ++ "/oauth2/access_token" := by
        unfold _get_oauth_url
        simp only [h1f, h2f, Bool.false_eq_true, if_false]
      rw [hval]
      apply getOauthUrl_of_endsWith
      have hassoc : pyRstripSlash u ++ "/oauth2/access_token"
          = (pyRstripSlash u ++ "/oauth2") ++ "/access_token" := by
        rw [String.append_assoc]; rfl
      rw [hassoc, rstrip_append_access_token]
      exact pyEndsWith_append _ _

lemma getLast_append_of_rev (s t : String) (c : Char) (rest : List Char)
    (ht : t.data.reverse = c :: rest) :
    (s ++ t).data.getLast? = some c := by
  rw [String.data_append, List.getLast?_append]
  have hlast : t.data.getLast? = some c := by
    rw [← List.head?_reverse, ht]
    rfl
  rw [hlast]
  rfl

/-! Equation lemmas for `get_and_cache_oauth_access_token` and the fetch. -/

@[simp] lemma resetToken_url (s : CachedToken) : s.resetToken.url = s.url := rfl

@[simp] lemma resetToken_client_id (s : CachedToken) :
    s.resetToken.client_id = s.client_id := rfl

@[simp] lemma resetToken_client_secret (s : CachedToken) :
    s.resetToken.client_secret = s.client_secret := rfl

@[simp] lemma resetToken_token_type (s : CachedToken) :
    s.resetToken.token_type = s.token_type := rfl

@[simp] lemma resetToken_grant_type (s : CachedToken) :
    s.resetToken.grant_type = s.grant_type := rfl

@[simp] lemma resetToken_refresh_token (s : CachedToken) :
    s.resetToken.refresh_token = s.refresh_token := rfl

@[simp] lemma resetToken_access_token (s : CachedToken) :
    s.resetToken.oauth_access_token = none := rfl

@[simp] lemma resetToken_expiration (s : CachedToken) :
    s.resetToken.expiration = s.expiration := rfl

lemma resetToken_eq_self (s : CachedToken) (h : s.oauth_access_token = none) :
    s.resetToken = s := by
  cases s
  simp only [CachedToken.resetToken]
  simp_all

lemma get_and_cache_none (s : CachedToken) (now : Int)
    (r : Except PyErr HttpResponse) (h : s.oauth_access_token = none) :
    s.get_and_cache_oauth_access_token now r
      = s.fetch_and_store (_get_oauth_url s.url) now r := by
  unfold CachedToken.get_and_cache_oauth_access_token
  rw [h]

lemma get_and_cache_falsy (s : CachedToken) (now : Int)
    (r : Except PyErr HttpResponse) (tok : Json)
    (h : s.oauth_access_token = some tok) (hf : jsonTruthy tok = false) :
    s.get_and_cache_oauth_access_token now r
      = s.fetch_and_store (_get_oauth_url s.url) now r := by
  unfold CachedToken.get_and_cache_oauth_access_token
  rw [h]
  simp [hf]

lemma get_and_cache_stale (s : CachedToken) (now : Int)
    (r : Except PyErr HttpResponse) (tok : Json)
    (h : s.oauth_access_token = some tok) (ht : jsonTruthy tok = true)
    (hst : ¬(now < s.expiration - ACCESS_TOKEN_EXPIRED_THRESHOLD_SECONDS)) :
    s.get_and_cache_oauth_access_token now r
      = s.fetch_and_store (_get_oauth_url s.url) now r := by
  unfold CachedToken.get_and_cache_oauth_access_token
  rw [h]
  simp [ht, hst]

lemma get_and_cache_hit (s : CachedToken) (now : Int)
    (r : Except PyErr HttpResponse) (tok : Json)
    (h : s.oauth_access_token = some tok) (ht : jsonTruthy tok = true)
    (hlt : now < s.expiration - ACCESS_TOKEN_EXPIRED_THRESHOLD_SECONDS) :
    s.get_and_cache_oauth_access_token now r
      = { result := .ok (tok, s.expiration), state := s, posted := none } := by
  unfold CachedToken.get_and_cache_oauth_access_token
  rw [h]
  simp [ht, hlt]

lemma get_and_cache_fetch_of_posted (s : CachedToken) (now : Int)
    (r : Except PyErr HttpResponse)
    (h : (s.get_and_cache_oauth_access_token now r).posted ≠ none) :
    s.get_and_cache_oauth_access_token now r
      = s.fetch_and_store (_get_oauth_url s.url) now r := by
  rcases hc : s.oauth_access_token with _ | tok
  · exact get_and_cache_none s now r hc
  · rcases htr : jsonTruthy tok with _ | _
    · exact get_and_cache_falsy s now r tok hc htr
    · by_cases hlt : now < s.expiration - ACCESS_TOKEN_EXPIRED_THRESHOLD_SECONDS
      · exact absurd (by rw [get_and_cache_hit s now r tok hc htr hlt]) h
      · exact get_and_cache_stale s now r tok hc htr hlt

lemma get_and_cache_fetch_of_stale (s : CachedToken) (now : Int)
    (r : Except PyErr HttpResponse) (hs : s.staleAt now) :
    s.get_and_cache_oauth_access_token now r
      = s.fetch_and_store (_get_oauth_url s.url) now r := by
  rcases hc : s.oauth_access_token with _ | tok
  · exact get_and_cache_none s now r hc
  · rcases htr : jsonTruthy tok with _ | _
    · exact get_and_cache_falsy s now r tok hc htr
    · exact get_and_cache_stale s now r tok hc htr
        (not_lt.mpr (hs tok hc htr))

lemma staleAt_mono (s : CachedToken) (t u : Int) (h : s.staleAt t)
    (htu : t ≤ u) : s.staleAt u :=
  fun tok hc htr => le_trans (h tok hc htr) htu

lemma parse_token_response_ok (resp : HttpResponse)
    (fs : List (String × Json)) (tok expv : Json)
    (hjson : resp.jsonBody = some (.obj fs))
    (hak : fs.lookup "access_token" = some tok)
    (hei : fs.lookup "expires_in" = some expv) :
    parse_token_response resp = .ok (tok, expv) := by
  unfold parse_token_response
  rw [hjson]
  simp [pySubscript, hak, hei]

lemma post_and_parse_ok (now : Int) (resp : HttpResponse) (u : String)
    (d : List (String × String)) (fs : List (String × Json))
    (tok : Json) (E : Int)
    (hstatus : ¬(400 ≤ resp.status ∧ resp.status < 600))
    (hjson : resp.jsonBody = some (.obj fs))
    (hak : fs.lookup "access_token" = some tok)
    (hei : fs.lookup "expires_in" = some (.num E)) :
    post_and_parse now (.ok resp) u d
      = { result := .ok (tok, now + E), posted := some (u, d) } := by
  have hrs : raise_for_status resp = .ok () := by
    unfold raise_for_status
    rw [if_neg hstatus]
  unfold post_and_parse
  simp only [hrs, parse_token_response_ok resp fs tok (.num E) hjson hak hei]
  rfl

lemma fetch_path_of_posted (now : Int) (r : Except PyErr HttpResponse)
    (u cid sec tt gt : String) (rt : Option String)
    (h : (get_oauth_access_token now r u cid sec tt gt rt).posted ≠ none) :
    ¬(pyTruthy rt = false ∧ gt = "refresh_token") := by
  rintro ⟨hrt, hgt⟩
  apply h
  unfold get_oauth_access_token
  simp [hrt, hgt]

lemma get_oauth_access_token_ok (now : Int) (resp : HttpResponse)
    (u cid sec tt gt : String) (rt : Option String)
    (fs : List (String × Json)) (tok : Json) (E : Int)
    (hstatus : ¬(400 ≤ resp.status ∧ resp.status < 600))
    (hjson : resp.jsonBody = some (.obj fs))
    (hak : fs.lookup "access_token" = some tok)
    (hei : fs.lookup "expires_in" = some (.num E))
    (hpath : ¬(pyTruthy rt = false ∧ gt = "refresh_token")) :
    (get_oauth_access_token now (.ok resp) u cid sec tt gt rt).result
      = .ok (tok, now + E) := by
  unfold get_oauth_access_token
  rcases hrt : pyTruthy rt with _ | _
  · have hgt : gt ≠ "refresh_token" := fun hh => hpath ⟨hrt, hh⟩
    have hgtb : (gt == "refresh_token") = false := by
      simp [hgt]
    simp only [Bool.false_eq_true, if_false, hgtb,
      post_and_parse_ok now resp _ _ fs tok E hstatus hjson hak hei]
  · simp only [if_true,
      post_and_parse_ok now resp _ _ fs tok E hstatus hjson hak hei]

lemma fetch_and_store_success (s : CachedToken) (u : String) (now : Int)
    (resp : HttpResponse) (fs : List (String × Json)) (tok : Json) (E : Int)
    (hstatus : ¬(400 ≤ resp.status ∧ resp.status < 600))
    (hjson : resp.jsonBody = some (.obj fs))
    (hak : fs.lookup "access_token" = some tok)
    (hei : fs.lookup "expires_in" = some (.num E))
    (hpath : ¬(pyTruthy s.refresh_token = false ∧ s.grant_type = "refresh_token")) :
    (s.fetch_and_store u now (.ok resp)).result
        = .ok (tok, now + E - ACCESS_TOKEN_EXPIRED_THRESHOLD_SECONDS) ∧
    (s.fetch_and_store u now (.ok resp)).state
        = { s with oauth_access_token := some tok,
                   expiration := now + E - ACCESS_TOKEN_EXPIRED_THRESHOLD_SECONDS } := by
  have hres := get_oauth_access_token_ok now resp u s.client_id s.client_secret
    s.token_type s.grant_type s.refresh_token fs tok E hstatus hjson hak hei hpath
  unfold CachedToken.fetch_and_store
  simp only [hres]
  exact ⟨trivial, trivial⟩

lemma fetch_and_store_reset_obs (s : CachedToken) (u : String) (now : Int)
    (r : Except PyErr HttpResponse) :
    observe ((s.resetToken).fetch_and_store u now r)
      = observe (s.fetch_and_store u now r) := by
  unfold CachedToken.fetch_and_store
  simp only [resetToken_client_id, resetToken_client_secret,
    resetToken_token_type, resetToken_grant_type, resetToken_refresh_token]
  rcases hres : (get_oauth_access_token now r u s.client_id s.client_secret
      s.token_type s.grant_type s.refresh_token).result with e | ⟨tok, exp⟩ <;>
    simp [observe, hres]

lemma fetch_and_store_state_err (s : CachedToken) (u : String) (now : Int)
    (r : Except PyErr HttpResponse) (e : PyErr)
    (hres : (get_oauth_access_token now r u s.client_id s.client_secret
        s.token_type s.grant_type s.refresh_token).result = .error e) :
    (s.fetch_and_store u now r).state = s := by
  unfold CachedToken.fetch_and_store
  simp only [hres]

lemma fetch_and_store_reset_state_ok (s : CachedToken) (u : String) (now : Int)
    (r : Except PyErr HttpResponse) (tok : Json) (exp : Int)
    (hres : (get_oauth_access_token now r u s.client_id s.client_secret
        s.token_type s.grant_type s.refresh_token).result = .ok (tok, exp)) :
    ((s.resetToken).fetch_and_store u now r).state
      = (s.fetch_and_store u now r).state := by
  unfold CachedToken.fetch_and_store
  simp only [resetToken_url, resetToken_client_id, resetToken_client_secret,
    resetToken_token_type, resetToken_grant_type, resetToken_refresh_token,
    hres]

lemma stale_obs_equiv (calls : List CallSpec) :
    ∀ (s : CachedToken) (t : Int), s.staleAt t → chronological t calls = true →
      (s.runCalls calls).map observe
        = ((s.resetToken).runCalls calls).map observe := by
  induction calls with
  | nil => intro s t _ _; rfl
  | cons c cs ih =>
    intro s t hs hc
    simp only [chronological, Bool.and_eq_true, decide_eq_true_eq] at hc
    obtain ⟨h1, h2⟩ := hc
    have hsc : s.staleAt c.time := staleAt_mono s t c.time hs h1
    simp only [CachedToken.runCalls, List.map_cons]
    rw [get_and_cache_fetch_of_stale s c.time c.response hsc,
        get_and_cache_none s.resetToken c.time c.response rfl]
    simp only [resetToken_url]
    congr 1
    · exact (fetch_and_store_reset_obs s (_get_oauth_url s.url)
        c.time c.response).symm
    · rcases hres : (get_oauth_access_token c.time c.response
          (_get_oauth_url s.url) s.client_id s.client_secret s.token_type
          s.grant_type s.refresh_token).result with e | ⟨tok, exp⟩
      · rw [fetch_and_store_state_err s (_get_oauth_url s.url)
            c.time c.response e hres,
          fetch_and_store_state_err s.resetToken (_get_oauth_url s.url)
            c.time c.response e hres]
        exact ih s c.time hsc h2
      · rw [← fetch_and_store_reset_state_ok s (_get_oauth_url s.url)
            c.time c.response tok exp hres]

/-! Lemmas about where the cache posts and how the session evolves. -/

lemma post_and_parse_posted (now : Int) (r : Except PyErr HttpResponse)
    (pu : String) (d : List (String × String)) :
    (post_and_parse now r pu d).posted = some (pu, d) := by
  unfold post_and_parse
  rcases r with e | resp
  · rfl
  · rcases hrs : raise_for_status resp with e | u2
    · simp [hrs]
    · rcases hp : parse_token_response resp with e | ⟨ta, te⟩
      · simp [hrs, hp]
      · rcases ht : timedeltaSeconds te with e | secs
        · simp [hrs, hp, ht]
        · simp [hrs, hp, ht]

lemma get_oauth_posted_shape (now : Int) (r : Except PyErr HttpResponse)
    (u cid sec tt gt : String) (rt : Option String) :
    (get_oauth_access_token now r u cid sec tt gt rt).posted = none ∨
    ∃ d, (get_oauth_access_token now r u cid sec tt gt rt).posted
        = some (_get_oauth_url u, d) := by
  unfold get_oauth_access_token
  rcases hrt : pyTruthy rt with _ | _
  · rcases hgt : (gt == "refresh_token") with _ | _
    · right
      refine ⟨[("grant_type", gt), ("client_id", cid), ("client_secret", sec),
               ("token_type", tt)], ?_⟩
      simp only [hrt, Bool.false_eq_true, if_false, hgt]
      exact post_and_parse_posted now r _ _
    · left
      simp [hrt, hgt]
  · right
    refine ⟨[("grant_type", gt), ("client_id", cid), ("client_secret", sec),
             ("token_type", tt)] ++ [("refresh_token", rt.getD "")], ?_⟩
    simp only [hrt, if_true]
    exact post_and_parse_posted now r _ _

lemma fetch_and_store_posted (s : CachedToken) (u : String) (now : Int)
    (r : Except PyErr HttpResponse) :
    (s.fetch_and_store u now r).posted
      = (get_oauth_access_token now r u s.client_id s.client_secret
          s.token_type s.grant_type s.refresh_token).posted := by
  unfold CachedToken.fetch_and_store
  rcases hres : (get_oauth_access_token now r u s.client_id s.client_secret
      s.token_type s.grant_type s.refresh_token).result with e | ⟨tk, ex⟩ <;>
    simp [hres]

lemma get_and_cache_posted_url (s : CachedToken) (now : Int)
    (r : Except PyErr HttpResponse) (u : String) (d : List (String × String))
    (h : (s.get_and_cache_oauth_access_token now r).posted = some (u, d)) :
    u = _get_oauth_url s.url := by
  have hne : (s.get_and_cache_oauth_access_token now r).posted ≠ none := by
    rw [h]
    exact Option.some_ne_none _
  rw [get_and_cache_fetch_of_posted s now r hne,
    fetch_and_store_posted s (_get_oauth_url s.url) now r] at h
  rcases get_oauth_posted_shape now r (_get_oauth_url s.url) s.client_id
      s.client_secret s.token_type s.grant_type s.refresh_token with
    hnone | ⟨d2, hsome⟩
  · rw [hnone] at h
    exact absurd h.symm (Option.some_ne_none _)
  · rw [hsome] at h
    have hp : (_get_oauth_url (_get_oauth_url s.url), d2) = (u, d) :=
      Option.some.inj h
    have hu : _get_oauth_url (_get_oauth_url s.url) = u := congrArg Prod.fst hp
    exact hu.symm.trans (getOauthUrl_idem s.url)

lemma fetch_and_store_state_url (s : CachedToken) (u : String) (now : Int)
    (r : Except PyErr HttpResponse) :
    (s.fetch_and_store u now r).state.url = s.url := by
  unfold CachedToken.fetch_and_store
  rcases hres : (get_oauth_access_token now r u s.client_id s.client_secret
      s.token_type s.grant_type s.refresh_token).result with e | ⟨tk, ex⟩ <;>
    simp [hres]

lemma get_and_cache_state_url (s : CachedToken) (now : Int)
    (r : Except PyErr HttpResponse) :
    (s.get_and_cache_oauth_access_token now r).state.url = s.url := by
  rcases hc : s.oauth_access_token with _ | tok
  · rw [get_and_cache_none s now r hc]
    exact fetch_and_store_state_url s _ now r
  · rcases htr : jsonTruthy tok with _ | _
    · rw [get_and_cache_falsy s now r tok hc htr]
      exact fetch_and_store_state_url s _ now r
    · by_cases hlt : now < s.expiration - ACCESS_TOKEN_EXPIRED_THRESHOLD_SECONDS
      · rw [get_and_cache_hit s now r tok hc htr hlt]
      · rw [get_and_cache_stale s now r tok hc htr hlt]
        exact fetch_and_store_state_url s _ now r

lemma ensure_state_some (s : SessionState) (now : Int)
    (r : Except PyErr HttpResponse) (ct : CachedToken)
    (h : s.access_token = some ct) :
    (s.ensure_authentication now r).state.access_token
        = some ((ct.get_and_cache_oauth_access_token now r).state) ∧
    (s.ensure_authentication now r).posted
        = (ct.get_and_cache_oauth_access_token now r).posted := by
  unfold SessionState.ensure_authentication
  rw [h]
  rcases hout : (ct.get_and_cache_oauth_access_token now r).result with
    e | ⟨tk, ex⟩ <;> simp [hout]

lemma ensure_state_none (s : SessionState) (now : Int)
    (r : Except PyErr HttpResponse) (h : s.access_token = none) :
    (s.ensure_authentication now r).state.access_token
        = some (((CachedToken.init now s.currentOauthUrl s.client_id
            s.client_secret s.token_type "client_credentials"
            none).get_and_cache_oauth_access_token now r).state) ∧
    (s.ensure_authentication now r).posted
        = ((CachedToken.init now s.currentOauthUrl s.client_id s.client_secret
            s.token_type "client_credentials"
            none).get_and_cache_oauth_access_token now r).posted := by
  unfold SessionState.ensure_authentication
  rw [h]
  rcases hout : ((CachedToken.init now s.currentOauthUrl s.client_id
      s.client_secret s.token_type "client_credentials"
      none).get_and_cache_oauth_access_token now r).result with
    e | ⟨tk, ex⟩ <;> simp [hout]

lemma ensure_ok_sets_token_some (s : SessionState) (now : Int)
    (r : Except PyErr HttpResponse) (ct : CachedToken)
    (hct : s.access_token = some ct) (tok : Json)
    (h : (s.ensure_authentication now r).result = .ok tok) :
    (s.ensure_authentication now r).state.authToken = some tok := by
  unfold SessionState.ensure_authentication at h ⊢
  rw [hct] at h ⊢
  rcases hout : (ct.get_and_cache_oauth_access_token now r).result with
    e | ⟨tk, ex⟩ <;> simp [hout] at h ⊢
  exact h

lemma ensure_ok_sets_token_none (s : SessionState) (now : Int)
    (r : Except PyErr HttpResponse) (hct : s.access_token = none) (tok : Json)
    (h : (s.ensure_authentication now r).result = .ok tok) :
    (s.ensure_authentication now r).state.authToken = some tok := by
  unfold SessionState.ensure_authentication at h ⊢
  rw [hct] at h ⊢
  rcases hout : ((CachedToken.init now s.currentOauthUrl s.client_id
      s.client_secret s.token_type "client_credentials"
      none).get_and_cache_oauth_access_token now r).result with
    e | ⟨tk, ex⟩ <;> simp [hout] at h ⊢
  exact h

lemma ensure_ok_sets_token (s : SessionState) (now : Int)
    (r : Except PyErr HttpResponse) (tok : Json)
    (h : (s.ensure_authentication now r).result = .ok tok) :
    (s.ensure_authentication now r).state.authToken = some tok := by
  rcases hct : s.access_token with _ | ct
  · exact ensure_ok_sets_token_none s now r hct tok h
  · exact ensure_ok_sets_token_some s now r ct hct tok h



lemma request_projections (s : SessionState) (now : Int)
    (r : Except PyErr HttpResponse) (method url : String) :
    (s.request now r method url).state = (s.ensure_authentication now r).state ∧
    (s.request now r method url).tokenPosted
      = (s.ensure_authentication now r).posted := by
  unfold SessionState.request
  rcases h : (s.ensure_authentication now r).result with e | tk <;> simp [h]

lemma applyOp_access_url (s : SessionState) (ct : CachedToken)
    (h : s.access_token = some ct) (op : SessionOp) :
    (∃ ct2, (s.applyOp op).1.access_token = some ct2 ∧ ct2.url = ct.url) ∧
    (∀ u d, (s.applyOp op).2 = some (u, d) → u = _get_oauth_url ct.url) := by
  rcases op with v | ⟨now, r, m, uu⟩
  · refine ⟨⟨ct, ?_, rfl⟩, ?_⟩
    · simpa [SessionState.applyOp] using h
    · intro u d hud
      simp [SessionState.applyOp] at hud
  · have hreq := request_projections s now r m uu
    have hens := ensure_state_some s now r ct h
    constructor
    · refine ⟨(ct.get_and_cache_oauth_access_token now r).state, ?_, ?_⟩
      · show (s.request now r m uu).state.access_token = _
        rw [hreq.1, hens.1]
      · exact get_and_cache_state_url ct now r
    · intro u d hud
      have : (ct.get_and_cache_oauth_access_token now r).posted = some (u, d) := by
        rw [← hens.2, ← hreq.2]
        exact hud
      exact get_and_cache_posted_url ct now r u d this

lemma postedUrls_fixed (ops : List SessionOp) :
    ∀ (s : SessionState) (ct : CachedToken), s.access_token = some ct →
      ∀ v ∈ s.postedUrls ops, v = _get_oauth_url ct.url := by
  induction ops with
  | nil => intro s ct _ v hv; exact absurd hv (List.not_mem_nil v)
  | cons op ops ih =>
    intro s ct h v hv
    obtain ⟨⟨ct2, hct2, hurl⟩, hpost⟩ := applyOp_access_url s ct h op
    unfold SessionState.postedUrls at hv
    rw [List.mem_append] at hv
    rcases hv with hv | hv
    · rcases hp : (s.applyOp op).2 with _ | ⟨u, d⟩
      · rw [hp] at hv
        exact absurd hv (List.not_mem_nil v)
      · rw [hp] at hv
        have hvu : v = u := List.mem_singleton.mp hv
        rw [hvu]
        exact hpost u d hp
    · have := ih (s.applyOp op).1 ct2 hct2 v hv
      rw [this, hurl]

lemma get_oauth_posts_of_path (now : Int) (r : Except PyErr HttpResponse)
    (u cid sec tt gt : String) (rt : Option String)
    (hpath : ¬(pyTruthy rt = false ∧ gt = "refresh_token")) :
    (get_oauth_access_token now r u cid sec tt gt rt).posted ≠ none := by
  unfold get_oauth_access_token
  rcases hrt : pyTruthy rt with _ | _
  · have hgt : (gt == "refresh_token") = false := by
      rcases hgtb : (gt == "refresh_token") with _ | _
      · rfl
      · exact absurd ⟨hrt, beq_iff_eq.mp hgtb⟩ hpath
    simp [hrt, hgt, post_and_parse_posted]
  · simp [hrt, post_and_parse_posted]

lemma runCalls_all_hits (tok : Json) (htok : jsonTruthy tok = true) :
    ∀ (calls : List CallSpec) (s : CachedToken),
      s.oauth_access_token = some tok →
      (∀ c ∈ calls,
        c.time < s.expiration - ACCESS_TOKEN_EXPIRED_THRESHOLD_SECONDS) →
      (s.runCalls calls).map observe
        = calls.map (fun _ =>
            ((.ok (tok, s.expiration) : Except PyErr (Json × Int)),
             (none : Option (String × List (String × String))))) := by
  intro calls
  induction calls with
  | nil => intro s _ _; rfl
  | cons c cs ih =>
    intro s hc hti
    have hhit := get_and_cache_hit s c.time c.response tok hc htok
      (hti c (List.mem_cons_self c cs))
    simp only [CachedToken.runCalls, List.map_cons, hhit]
    congr 1
    exact ih s hc (fun d hd => hti d (List.mem_cons_of_mem c hd))

/-! Claim theorems. -/

/-- C3 counterexample: the claim says the normalized url never ends with a
trailing slash, but on input `http://h/a/oauth2/access_token/` the function
returns the original url unchanged, trailing slash included (the
`/access_token` branch returns `url`, not `stripped_url`). -/
theorem C3_counterexample :
    _get_oauth_url "http://h/a/oauth2/access_token/"
        = "http://h/a/oauth2/access_token/" ∧
    pyEndsWith (_get_oauth_url "http://h/a/oauth2/access_token/") "/" = true := by
  constructor
  · rfl
  · rfl

/-- C3 (amended): `_get_oauth_url` strips trailing slashes and inspects the
stripped url: if it ends with `/access_token` the ORIGINAL url is returned
unchanged (so a trailing slash on the input survives); otherwise the result
ends with `/access_token` and never ends with a trailing slash. -/
theorem C3_url_normalization (url : String) :
    (pyEndsWith (pyRstripSlash url) "/access_token" = true →
      _get_oauth_url url = url) ∧
    (pyEndsWith (pyRstripSlash url) "/access_token" = false →
      pyEndsWith (_get_oauth_url url) "/access_token" = true ∧
      (_get_oauth_url url).data.getLast? ≠ some '/') := by
  constructor
  · intro h
    exact getOauthUrl_of_endsWith url h
  · intro h1
    by_cases h2 : pyEndsWith (pyRstripSlash url) "/oauth2" = true
    · have hval : _get_oauth_url url = pyRstripSlash url ++ "/access_token" := by
        unfold _get_oauth_url
        simp only [h1, h2, Bool.false_eq_true, if_false, if_true]
      rw [hval]
      constructor
      · exact pyEndsWith_append _ _
      · rw [getLast_append_of_rev (pyRstripSlash url) "/access_token" 'n'
          ['e', 'k', 'o', 't', '_', 's', 's', 'e', 'c', 'c', 'a', '/'] rfl]
        simp
    · have h2f : pyEndsWith (pyRstripSlash url) "/oauth2" = false :=
        Bool.eq_false_iff.mpr h2
      have hval : _get_oauth_url url
          = pyRstripSlash url ++ "/oauth2/access_token" := by
        unfold _get_oauth_url
        simp only [h1, h2f, Bool.false_eq_true, if_false]
      rw [hval]
      constructor
      · exact endsWith_access_token_of_append _
      · rw [getLast_append_of_rev (pyRstripSlash url) "/oauth2/access_token" 'n'
          ['e', 'k', 'o', 't', '_', 's', 's', 'e', 'c', 'c', 'a', '/',
           '2', 'h', 't', 'u', 'a', 'o', '/'] rfl]
        simp

/-- C3 witness: both branches of the amended statement instantiated: a url
already ending in `/access_token` is returned as-is, and a bare base url is
extended to a slash-free `/oauth2/access_token` endpoint. -/
theorem C3_witness :
    (pyEndsWith (pyRstripSlash "http://h/a/oauth2/access_token")
        "/access_token" = true ∧
      _get_oauth_url "http://h/a/oauth2/access_token"
        = "http://h/a/oauth2/access_token") ∧
    (pyEndsWith (pyRstripSlash "http://h/a") "/access_token" = false ∧
      pyEndsWith (_get_oauth_url "http://h/a") "/access_token" = true ∧
      (_get_oauth_url "http://h/a").data.getLast? ≠ some '/') :=
  ⟨⟨by decide, (C3_url_normalization "http://h/a/oauth2/access_token").1 (by decide)⟩,
   ⟨by decide, (C3_url_normalization "http://h/a").2 (by decide)⟩⟩

/-- C9: `_get_oauth_url` is idempotent, and the three concrete
normalizations given in the spec hold. -/
theorem C9_normalize_idempotent :
    (∀ u : String, _get_oauth_url (_get_oauth_url u) = _get_oauth_url u) ∧
    _get_oauth_url "http://h/a" = "http://h/a/oauth2/access_token" ∧
    _get_oauth_url "http://h/a/oauth2" = "http://h/a/oauth2/access_token" ∧
    _get_oauth_url "http://h/a/oauth2/access_token"
      = "http://h/a/oauth2/access_token" :=
  ⟨getOauthUrl_idem, by decide, by decide, by decide⟩

/-- C5 counterexample: with grant type `client_credentials` and a supplied
refresh token, the posted form body DOES contain a `refresh_token` field —
the source adds it whenever the value is truthy, regardless of grant type. -/
theorem C5_counterexample :
    (get_oauth_access_token 0 (.ok demoTokenResponse) "http://h" "cid" "sec"
        "jwt" "client_credentials" (some "rtok")).posted
      = some ("http://h/oauth2/access_token",
          [("grant_type", "client_credentials"), ("client_id", "cid"),
           ("client_secret", "sec"), ("token_type", "jwt"),
           ("refresh_token", "rtok")]) := rfl

/-- C5 (amended): whenever a token request is posted, its form body has
exactly the keys `grant_type`, `client_id`, `client_secret`, `token_type`,
plus `refresh_token` exactly when a truthy refresh token value was supplied
— regardless of the grant type. -/
theorem C5_request_body (now : Int) (r : Except PyErr HttpResponse)
    (url cid sec tt gt : String) (rt : Option String)
    (u : String) (d : List (String × String))
    (hp : (get_oauth_access_token now r url cid sec tt gt rt).posted
        = some (u, d)) :
    d.map Prod.fst
      = ["grant_type", "client_id", "client_secret", "token_type"]
        ++ (if pyTruthy rt then ["refresh_token"] else []) ∧
    (("refresh_token" ∈ d.map Prod.fst) ↔ pyTruthy rt = true) := by
  unfold get_oauth_access_token at hp
  rcases hrt : pyTruthy rt with _ | _
  · rcases hgt : (gt == "refresh_token") with _ | _
    · simp only [hrt, Bool.false_eq_true, if_false, hgt,
        post_and_parse_posted] at hp
      have hd : [("grant_type", gt), ("client_id", cid),
          ("client_secret", sec), ("token_type", tt)] = d :=
        congrArg Prod.snd (Option.some.inj hp)
      rw [← hd]
      simp
    · simp [hrt, hgt] at hp
  · simp only [hrt, if_true, post_and_parse_posted] at hp
    have hd : [("grant_type", gt), ("client_id", cid),
        ("client_secret", sec), ("token_type", tt)]
          ++ [("refresh_token", rt.getD "")] = d :=
      congrArg Prod.snd (Option.some.inj hp)
    rw [← hd]
    simp

/-- C5 witness: the amended statement instantiated on a concrete
client-credentials request carrying a refresh token. -/
theorem C5_witness :
    (get_oauth_access_token 0 (.ok demoTokenResponse) "http://h" "cid" "sec"
        "jwt" "client_credentials" (some "rtok")).posted
      = some ("http://h/oauth2/access_token",
          [("grant_type", "client_credentials"), ("client_id", "cid"),
           ("client_secret", "sec"), ("token_type", "jwt"),
           ("refresh_token", "rtok")]) ∧
    ([("grant_type", "client_credentials"), ("client_id", "cid"),
      ("client_secret", "sec"), ("token_type", "jwt"),
      ("refresh_token", "rtok")].map Prod.fst
        = ["grant_type", "client_id", "client_secret", "token_type"]
          ++ (if pyTruthy (some "rtok") then ["refresh_token"] else []) ∧
     (("refresh_token" ∈ [("grant_type", "client_credentials"),
        ("client_id", "cid"), ("client_secret", "sec"), ("token_type", "jwt"),
        ("refresh_token", "rtok")].map Prod.fst)
       ↔ pyTruthy (some "rtok") = true)) :=
  ⟨rfl, C5_request_body 0 (.ok demoTokenResponse) "http://h" "cid" "sec" "jwt"
    "client_credentials" (some "rtok") "http://h/oauth2/access_token"
    [("grant_type", "client_credentials"), ("client_id", "cid"),
     ("client_secret", "sec"), ("token_type", "jwt"),
     ("refresh_token", "rtok")] rfl⟩

/-- C7 counterexample: a success response whose body is valid JSON but a
JSON array (so it lacks the `access_token` key) makes the fetch fail with a
`TypeError` that carries no response — not with the
`RequestException(response=...)` the claim requires for every body lacking
the keys. -/
theorem C7_counterexample :
    (get_oauth_access_token 0 (.ok demoArrayResponse) "http://h" "cid" "sec"
        "jwt" "client_credentials" none).result
      = .error (.typeError "list indices must be integers or slices, not str") :=
  rfl

/-- C7 (amended): when the auth endpoint responds with a success status and
a body that is either not valid JSON or a JSON OBJECT lacking the
`access_token` or `expires_in` key, the fetch fails with a bare
`RequestException` carrying the raw response (the spec's
`TokenResponseError`), whose kind differs from the `HTTPError` raised for
4xx/5xx; a success body that is valid JSON but not an object instead
escapes with a `TypeError`. -/
theorem C7_token_response_error (now : Int) (url cid sec tt gt : String)
    (rt : Option String) (resp : HttpResponse)
    (hpath : ¬(pyTruthy rt = false ∧ gt = "refresh_token"))
    (hstatus : ¬(400 ≤ resp.status ∧ resp.status < 600))
    (hbody : resp.jsonBody = none ∨
      ∃ fs, resp.jsonBody = some (.obj fs) ∧
        (fs.lookup "access_token" = none ∨ fs.lookup "expires_in" = none)) :
    (get_oauth_access_token now (.ok resp) url cid sec tt gt rt).result
        = .error (.requestException resp.status resp.rawBody) ∧
    ∀ st b, PyErr.requestException resp.status resp.rawBody
        ≠ PyErr.httpError st b := by
  have hparse : parse_token_response resp
      = .error (.requestException resp.status resp.rawBody) := by
    unfold parse_token_response
    rcases hbody with hb | ⟨fs, hb, hkey⟩
    · rw [hb]
    · rw [hb]
      rcases hkey with hk | hk
      · simp [pySubscript, hk]
      · rcases hak : fs.lookup "access_token" with _ | tokv
        · simp [pySubscript, hak]
        · simp [pySubscript, hak, hk]
  have hrs : raise_for_status resp = .ok () := by
    unfold raise_for_status
    rw [if_neg hstatus]
  have hpp : ∀ (u2 : String) (d : List (String × String)),
      (post_and_parse now (.ok resp) u2 d).result
        = .error (.requestException resp.status resp.rawBody) := by
    intro u2 d
    unfold post_and_parse
    simp [hrs, hparse]
  constructor
  · unfold get_oauth_access_token
    rcases hrt : pyTruthy rt with _ | _
    · have hgt : (gt == "refresh_token") = false := by
        rcases hgtb : (gt == "refresh_token") with _ | _
        · rfl
        · exact absurd ⟨hrt, beq_iff_eq.mp hgtb⟩ hpath
      simp [hrt, hgt, hpp]
    · simp [hrt, hpp]
  · intro st b h
    exact PyErr.noConfusion h

/-- C7 witness: Scenario C — HTTP 200 with body `Not JSON` fails with the
bare `RequestException` carrying the raw response. -/
theorem C7_witness :
    (¬((400 : Nat) ≤ 200 ∧ (200 : Nat) < 600)) ∧
    demoNotJson.jsonBody = none ∧
    (get_oauth_access_token 0 (.ok demoNotJson) "http://h" "cid" "sec" "jwt"
        "client_credentials" none).result
      = .error (.requestException 200 "Not JSON") :=
  ⟨by decide, rfl,
    (C7_token_response_error 0 "http://h" "cid" "sec" "jwt"
      "client_credentials" none demoNotJson (by simp [pyTruthy]) (by decide)
      (Or.inl rfl)).1⟩

/-- C8: a cache configured with grant type `refresh_token` and without a
refresh token fails with the `assert` (the spec's `ConfigurationError`)
before any HTTP request to the auth endpoint is made. -/
theorem C8_refresh_grant_requires_token (now0 now : Int)
    (r : Except PyErr HttpResponse) (url cid sec tt : String)
    (rt : Option String) (hrt : pyTruthy rt = false) :
    ((CachedToken.init now0 url cid sec tt "refresh_token"
        rt).get_and_cache_oauth_access_token now r).result
      = .error (.assertionError "refresh_token parameter required") ∧
    ((CachedToken.init now0 url cid sec tt "refresh_token"
        rt).get_and_cache_oauth_access_token now r).posted = none := by
  constructor <;>
    simp [CachedToken.init, CachedToken.get_and_cache_oauth_access_token,
      CachedToken.fetch_and_store, get_oauth_access_token, hrt]

/-- C8 witness: Scenario D at a concrete configuration — no network request
is recorded and the `assert` error surfaces. -/
theorem C8_witness :
    pyTruthy (none : Option String) = false ∧
    ((CachedToken.init 0 "http://h" "cid" "sec" "jwt" "refresh_token"
        none).get_and_cache_oauth_access_token 5 (.ok demoTokenResponse)).result
      = .error (.assertionError "refresh_token parameter required") ∧
    ((CachedToken.init 0 "http://h" "cid" "sec" "jwt" "refresh_token"
        none).get_and_cache_oauth_access_token 5 (.ok demoTokenResponse)).posted
      = none :=
  ⟨rfl,
   (C8_refresh_grant_requires_token 0 5 (.ok demoTokenResponse) "http://h"
     "cid" "sec" "jwt" none rfl).1,
   (C8_refresh_grant_requires_token 0 5 (.ok demoTokenResponse) "http://h"
     "cid" "sec" "jwt" none rfl).2⟩

/-- C1 counterexample: a token fetched at instant 0 with `expires_in = 60`
is stored with `storedExpiresAt = 55`, yet a call at instant 52 — strictly
before 55 — performs a new fetch instead of returning the cached pair (the
source subtracts the margin a second time at read time); moreover a fetch
with `expires_in = 3` at instant 0 stores and returns
`storedExpiresAt = -2`, which is at or before the store instant. -/
theorem C1_counterexample :
    demoFirstCall.result = .ok (.str "abcd", 55) ∧
    ((52 : Int) < 55) ∧
    demoSecondCall.posted.isSome = true ∧
    demoSecondCall.result = .ok (.str "efgh", 107) ∧
    (demoCache.get_and_cache_oauth_access_token 0 (.ok demoTinyResponse)).result
      = .ok (.str "tiny", -2) ∧
    ((-2 : Int) ≤ 0) :=
  ⟨rfl, by decide, rfl, rfl, rfl, by decide⟩

/-- C1 (amended): provided every fetched token has `expires_in` strictly
greater than the margin, a call that fetches returns a `storedExpiresAt`
strictly after the store instant; and any call made strictly before
`storedExpiresAt` MINUS THE MARGIN (not before `storedExpiresAt`) returns
the same cached `(tokenValue, storedExpiresAt)` pair unchanged, without a
fetch. -/
theorem C1_freshness (s : CachedToken) (now : Int)
    (r : Except PyErr HttpResponse) :
    (∀ (resp : HttpResponse) (fs : List (String × Json)) (tok : Json) (E : Int),
      r = .ok resp →
      ¬(400 ≤ resp.status ∧ resp.status < 600) →
      resp.jsonBody = some (.obj fs) →
      fs.lookup "access_token" = some tok →
      fs.lookup "expires_in" = some (.num E) →
      ACCESS_TOKEN_EXPIRED_THRESHOLD_SECONDS < E →
      (s.get_and_cache_oauth_access_token now r).posted ≠ none →
      (s.get_and_cache_oauth_access_token now r).result
          = .ok (tok, now + E - ACCESS_TOKEN_EXPIRED_THRESHOLD_SECONDS) ∧
      now < now + E - ACCESS_TOKEN_EXPIRED_THRESHOLD_SECONDS) ∧
    (∀ tok : Json, s.oauth_access_token = some tok → jsonTruthy tok = true →
      now < s.expiration - ACCESS_TOKEN_EXPIRED_THRESHOLD_SECONDS →
      s.get_and_cache_oauth_access_token now r
        = { result := .ok (tok, s.expiration), state := s, posted := none }) := by
  constructor
  · rintro resp fs tok E rfl hstatus hjson hak hei hE hfetch
    have heq := get_and_cache_fetch_of_posted s now (.ok resp) hfetch
    have hposted := hfetch
    rw [heq, fetch_and_store_posted] at hposted
    have hpath := fetch_path_of_posted now (.ok resp) (_get_oauth_url s.url)
      s.client_id s.client_secret s.token_type s.grant_type s.refresh_token
      hposted
    have hsucc := fetch_and_store_success s (_get_oauth_url s.url) now resp fs
      tok E hstatus hjson hak hei hpath
    rw [heq]
    refine ⟨hsucc.1, ?_⟩
    unfold ACCESS_TOKEN_EXPIRED_THRESHOLD_SECONDS at hE ⊢
    omega
  · intro tok hc htr hlt
    exact get_and_cache_hit s now r tok hc htr hlt

/-- C1 witness: the amended statement instantiated: a fetch at instant 0 of
a 60 s token returns `storedExpiresAt = 55 > 0`, and a cached read at
instant 30 (strictly before 55 - 5) returns the cached pair unchanged with
no fetch. -/
theorem C1_witness :
    (demoCache.get_and_cache_oauth_access_token 0 (.ok demoTokenResponse)).result
        = .ok (.str "abcd", 0 + 60 - ACCESS_TOKEN_EXPIRED_THRESHOLD_SECONDS) ∧
    ((0 : Int) < 0 + 60 - ACCESS_TOKEN_EXPIRED_THRESHOLD_SECONDS) ∧
    demoFreshCache.get_and_cache_oauth_access_token 30 (.ok demo500)
        = { result := .ok (.str "abcd", demoFreshCache.expiration),
            state := demoFreshCache, posted := none } := by
  have h1 := (C1_freshness demoCache 0 (.ok demoTokenResponse)).1
    demoTokenResponse [("access_token", .str "abcd"), ("expires_in", .num 60)]
    (.str "abcd") 60 rfl (by decide) rfl rfl rfl (by decide) (by decide)
  exact ⟨h1.1, h1.2,
    (C1_freshness demoFreshCache 30 (.ok demo500)).2 (.str "abcd") rfl rfl
      (by decide)⟩

/-- C2 counterexample: Scenario A's token is fetched at T0 = 0 with E = 60
and margin M = 5; the call at instant 52, which lies inside [T0, T0+E-M) =
[0, 55), nevertheless triggers a fetch — the claim's zero-fetch window is
wrong, the code refetches from T0+E-2M = 50 onward. -/
theorem C2_counterexample :
    demoFirstCall.posted.isSome = true ∧
    demoFirstCall.result = .ok (.str "abcd", 55) ∧
    ((0 : Int) ≤ 52 ∧ (52 : Int) < 0 + 60 - 5) ∧
    demoSecondCall.posted.isSome = true :=
  ⟨rfl, rfl, by decide, rfl⟩

/-- C2 (amended): after a token with non-empty value is fetched at T0 with
`expires_in = E` and margin M = 5, every call at an instant in
[T0, T0+E-2M) returns the cached pair and triggers zero fetches, and any
call at or after T0+E-2M triggers exactly one fetch. -/
theorem C2_single_fetch (s : CachedToken) (T0 : Int) (resp : HttpResponse)
    (fs : List (String × Json)) (tok : Json) (E : Int)
    (hstatus : ¬(400 ≤ resp.status ∧ resp.status < 600))
    (hjson : resp.jsonBody = some (.obj fs))
    (hak : fs.lookup "access_token" = some tok)
    (hei : fs.lookup "expires_in" = some (.num E))
    (htok : jsonTruthy tok = true)
    (hfetch : (s.get_and_cache_oauth_access_token T0 (.ok resp)).posted ≠ none) :
    (∀ calls : List CallSpec,
      (∀ c ∈ calls, T0 ≤ c.time ∧
        c.time < T0 + E - 2 * ACCESS_TOKEN_EXPIRED_THRESHOLD_SECONDS) →
      ((s.get_and_cache_oauth_access_token T0 (.ok resp)).state.runCalls
          calls).map observe
        = calls.map (fun _ =>
            ((.ok (tok, T0 + E - ACCESS_TOKEN_EXPIRED_THRESHOLD_SECONDS) :
                Except PyErr (Json × Int)),
             (none : Option (String × List (String × String)))))) ∧
    (∀ (t : Int) (r2 : Except PyErr HttpResponse),
      T0 + E - 2 * ACCESS_TOKEN_EXPIRED_THRESHOLD_SECONDS ≤ t →
      ((s.get_and_cache_oauth_access_token T0
          (.ok resp)).state.get_and_cache_oauth_access_token t r2).posted
        ≠ none) := by
  have heq := get_and_cache_fetch_of_posted s T0 (.ok resp) hfetch
  have hposted := hfetch
  rw [heq, fetch_and_store_posted] at hposted
  have hpath := fetch_path_of_posted T0 (.ok resp) (_get_oauth_url s.url)
    s.client_id s.client_secret s.token_type s.grant_type s.refresh_token
    hposted
  have hsucc := fetch_and_store_success s (_get_oauth_url s.url) T0 resp fs
    tok E hstatus hjson hak hei hpath
  have hstate : (s.get_and_cache_oauth_access_token T0 (.ok resp)).state = { s with oauth_access_token := some tok, expiration := T0 + E - ACCESS_TOKEN_EXPIRED_THRESHOLD_SECONDS } := by
    rw [heq]
    exact hsucc.2
  constructor
  · intro calls hcalls
    rw [hstate]
    refine runCalls_all_hits tok htok calls _ rfl (fun c hc => ?_)
    have h2 := (hcalls c hc).2
    show c.time < T0 + E - ACCESS_TOKEN_EXPIRED_THRESHOLD_SECONDS
      - ACCESS_TOKEN_EXPIRED_THRESHOLD_SECONDS
    unfold ACCESS_TOKEN_EXPIRED_THRESHOLD_SECONDS at h2 ⊢
    omega
  · intro t r2 ht
    rw [hstate]
    have hnl : ¬(t < T0 + E - ACCESS_TOKEN_EXPIRED_THRESHOLD_SECONDS
        - ACCESS_TOKEN_EXPIRED_THRESHOLD_SECONDS) := by
      unfold ACCESS_TOKEN_EXPIRED_THRESHOLD_SECONDS
      unfold ACCESS_TOKEN_EXPIRED_THRESHOLD_SECONDS at ht
      omega
    rw [get_and_cache_stale _ t r2 tok rfl htok hnl,
      fetch_and_store_posted]
    exact get_oauth_posts_of_path t r2 _ s.client_id s.client_secret
      s.token_type s.grant_type s.refresh_token hpath

/-- C2 witness: the amended statement instantiated on Scenario A's numbers:
calls at 30 and 49 reuse the cached token with no fetch; the call at 50
(= T0+E-2M) fetches. -/
theorem C2_witness :
    ((demoFirstCall.state.runCalls
        [⟨30, .ok demoTokenResponse2⟩, ⟨49, .ok demo500⟩]).map observe
      = [((.ok (.str "abcd", 55) : Except PyErr (Json × Int)),
          (none : Option (String × List (String × String)))),
         ((.ok (.str "abcd", 55) : Except PyErr (Json × Int)),
          (none : Option (String × List (String × String))))]) ∧
    (demoFirstCall.state.get_and_cache_oauth_access_token 50
        (.ok demoTokenResponse2)).posted ≠ none := by
  have h := C2_single_fetch demoCache 0 demoTokenResponse
    [("access_token", .str "abcd"), ("expires_in", .num 60)] (.str "abcd") 60
    (by decide) rfl rfl rfl rfl (by decide)
  exact ⟨h.1 [⟨30, .ok demoTokenResponse2⟩, ⟨49, .ok demo500⟩] (by decide),
    h.2 50 (.ok demoTokenResponse2) (by decide)⟩

/-- C4: when a truthy token is cached but stale and the fetch inside
`getToken()` fails, the error surfaces to the caller unchanged, and the
cache is observationally as if unauthenticated: every later schedule of
calls (at nondecreasing instants from the failure onward) produces exactly
the same results and fetches as a cache of the same configuration holding
no token at all — the previously cached token is never served again. -/
theorem C4_refresh_failure_drops_token (s : CachedToken) (now : Int)
    (r : Except PyErr HttpResponse) (e : PyErr) (tok : Json)
    (hcached : s.oauth_access_token = some tok)
    (htruthy : jsonTruthy tok = true)
    (hstale : ¬(now < s.expiration - ACCESS_TOKEN_EXPIRED_THRESHOLD_SECONDS))
    (herr : (get_oauth_access_token now r (_get_oauth_url s.url) s.client_id
        s.client_secret s.token_type s.grant_type s.refresh_token).result
      = .error e) :
    (s.get_and_cache_oauth_access_token now r).result = .error e ∧
    ∀ calls : List CallSpec, chronological now calls = true →
      ((s.get_and_cache_oauth_access_token now r).state.runCalls calls).map
          observe
        = ((s.resetToken).runCalls calls).map observe := by
  have heq := get_and_cache_stale s now r tok hcached htruthy hstale
  have hstate : (s.get_and_cache_oauth_access_token now r).state = s := by
    rw [heq]
    exact fetch_and_store_state_err s _ now r e herr
  have hres : (s.get_and_cache_oauth_access_token now r).result = .error e := by
    rw [heq]
    unfold CachedToken.fetch_and_store
    simp [herr]
  refine ⟨hres, ?_⟩
  intro calls hc
  rw [hstate]
  exact stale_obs_equiv calls s now (fun _ _ _ => not_lt.mp hstale) hc

/-- C4 witness: a stale cache whose refresh attempt gets an HTTP 500
surfaces the `HTTPError` unchanged, and a later call behaves exactly as on
a never-authenticated cache with the same configuration. -/
theorem C4_witness :
    (demoStaleCache.get_and_cache_oauth_access_token 60 (.ok demo500)).result
      = .error (.httpError 500 "") ∧
    ((demoStaleCache.get_and_cache_oauth_access_token 60
        (.ok demo500)).state.runCalls [⟨61, .ok demoTokenResponse⟩]).map observe
      = ((demoStaleCache.resetToken).runCalls
          [⟨61, .ok demoTokenResponse⟩]).map observe := by
  have h := C4_refresh_failure_drops_token demoStaleCache 60 (.ok demo500)
    (.httpError 500 "") (.str "old") rfl rfl (by decide) rfl
  exact ⟨h.1, h.2 [⟨61, .ok demoTokenResponse⟩] (by decide)⟩

/-- C6: `OAuthAPISession.request` obtains the token before the outbound
request is sent: if `_ensure_authentication` fails, its error propagates
unchanged and no outbound request is handed to the transport; if it
succeeds, the outbound request carries exactly the freshly obtained token
in its Authorization material. -/
theorem C6_auth_before_send (s : SessionState) (now : Int)
    (r : Except PyErr HttpResponse) (method url : String) :
    (∀ e, (s.ensure_authentication now r).result = .error e →
      (s.request now r method url).result = .error e ∧
      (s.request now r method url).outbound = none) ∧
    (∀ tok, (s.ensure_authentication now r).result = .ok tok →
      ∃ o, (s.request now r method url).outbound = some o ∧
        o.authToken = some tok ∧ o.method = method ∧ o.url = url) := by
  constructor
  · intro e he
    unfold SessionState.request
    simp only [he]
    exact ⟨trivial, trivial⟩
  · intro tok htok
    unfold SessionState.request
    simp only [htok]
    refine ⟨_, rfl, ?_, rfl, rfl⟩
    show (s.ensure_authentication now r).state.authToken = some tok
    exact ensure_ok_sets_token s now r tok htok

/-- C6 witness: Scenario B — the auth endpoint answers HTTP 500, the session
request fails with that `HTTPError`, and no outbound request is sent. -/
theorem C6_witness :
    (demoSession.ensure_authentication 0 (.ok demo500)).result
      = .error (.httpError 500 "") ∧
    (demoSession.request 0 (.ok demo500) "GET" "http://h/api/x").result
      = .error (.httpError 500 "") ∧
    (demoSession.request 0 (.ok demo500) "GET" "http://h/api/x").outbound
      = none := by
  have h := (C6_auth_before_send demoSession 0 (.ok demo500) "GET"
    "http://h/api/x").1 (.httpError 500 "") rfl
  exact ⟨rfl, h.1, h.2⟩

/-- C10: the token-endpoint url is fixed at the first authenticating call,
from the base url and the `oauth_uri` value current at that moment: the
`CachedToken` created then keeps that url, and every token fetch of the
first call and of any later sequence of operations — including arbitrary
reassignments of `oauth_uri` — posts to the normalization of that frozen
url. -/
theorem C10_oauth_url_fixed_at_first_call (s0 : SessionState)
    (h0 : s0.access_token = none) (now : Int)
    (r : Except PyErr HttpResponse) (method url : String)
    (ops : List SessionOp) :
    (∃ ct, (s0.request now r method url).state.access_token = some ct ∧
      ct.url = s0.currentOauthUrl) ∧
    (∀ u d, (s0.request now r method url).tokenPosted = some (u, d) →
      u = _get_oauth_url s0.currentOauthUrl) ∧
    (∀ v ∈ (s0.request now r method url).state.postedUrls ops,
      v = _get_oauth_url s0.currentOauthUrl) := by
  have hreq := request_projections s0 now r method url
  have hens := ensure_state_none s0 now r h0
  have haccess : (s0.request now r method url).state.access_token
      = some (((CachedToken.init now s0.currentOauthUrl s0.client_id
          s0.client_secret s0.token_type "client_credentials"
          none).get_and_cache_oauth_access_token now r).state) := by
    rw [hreq.1]
    exact hens.1
  refine ⟨⟨_, haccess, ?_⟩, ?_, ?_⟩
  · rw [get_and_cache_state_url]
    rfl
  · intro u d hud
    have hp : ((CachedToken.init now s0.currentOauthUrl s0.client_id
        s0.client_secret s0.token_type "client_credentials"
        none).get_and_cache_oauth_access_token now r).posted = some (u, d) := by
      rw [← hens.2, ← hreq.2]
      exact hud
    exact get_and_cache_posted_url _ now r u d hp
  · intro v hv
    have h2 := postedUrls_fixed ops (s0.request now r method url).state _
      haccess v hv
    rw [h2, get_and_cache_state_url]
    rfl

/-- C10 witness: a session whose `oauth_uri` is reassigned after the first
authenticating call still posts every later token request to the url frozen
at that first call. -/
theorem C10_witness :
    demoSession.access_token = none ∧
    (∀ v ∈ (demoSession.request 0 (.ok demoTokenResponse) "GET"
        "http://h/api/x").state.postedUrls demoOps,
      v = _get_oauth_url demoSession.currentOauthUrl) :=
  ⟨rfl, (C10_oauth_url_fixed_at_first_call demoSession rfl 0
    (.ok demoTokenResponse) "GET" "http://h/api/x" demoOps).2.2⟩

end OpenedxClient
